import Mathlib

/-!
Verification of the DeclaraCAD incremental recompute engine
(`declaracad/occ/impl/occ_algo.py`) against its natural-language
specification.

The geometry kernel (OCCT) is external and opaque, so kernel results are
modelled as a free term algebra: a kernel call is identified by the
operation kind and the operands it was invoked with.  Python `None` is
modelled by `Option`, Python truthiness of lists and numbers by emptiness
and non-zero tests, and Python exceptions by explicit error values.
-/

set_option autoImplicit false

namespace OccAlgo

/-! ### Boolean operations (`OccBooleanOperation`, `OccCommon/Cut/Fuse`) -/

/-- The three boolean operation kinds dispatched by `_do_operation`. -/
inductive BoolKind
  | common
  | cut
  | fuse
deriving DecidableEq, Repr

/-- Opaque kernel shape values for the boolean engine.  A kernel boolean
call `BRepAlgoAPI_{Common,Cut,Fuse}(shape1, shape2[, pave_filler])` is
recorded as the constructor `boolOp`; the second operand is an `Option`
because `update_shape` passes `c.shape` straight through, which can be
Python `None` for an unconfigured child. -/
inductive BShape
  | leaf (n : Nat)
  | boolOp (k : BoolKind) (pave : Option Nat) (a : BShape) (b : Option BShape)

/-- Declaration attributes read by the boolean operations: the two
explicit operands, the optional pave filler, and the operation kind
(which class `_do_operation` was dispatched to). -/
structure BoolDecl where
  kind : BoolKind
  shape1 : Option BShape
  shape2 : Option BShape
  pave_filler : Option Nat

/-- `OccCommon._do_operation` / `OccCut._do_operation` /
`OccFuse._do_operation`: one kernel call with the two operands and the
declared pave filler appended when truthy. -/
def do_operation (k : BoolKind) (pave : Option Nat) (a : BShape) (b : Option BShape) :
    BShape :=
  BShape.boolOp k pave a b

/-- `OccBooleanOperation.create_shape`: if both explicit operands are
set, `shape = _do_operation(shape1, shape2)`, else `shape = None`. -/
def create_shape (d : BoolDecl) : Option BShape :=
  match d.shape1, d.shape2 with
  | some a, some b => some (do_operation d.kind d.pave_filler a (some b))
  | _, _ => none

/-- `OccBooleanOperation.update_shape`: after `create_shape`, fold over
the children; when the accumulator is set, apply the kernel operation to
it and the child's shape, else take the child's shape as the new
accumulator. -/
def bool_update_shape (d : BoolDecl) (children : List (Option BShape)) :
    Option BShape :=
  children.foldl
    (fun s c =>
      match s with
      | some sv => some (do_operation d.kind d.pave_filler sv c)
      | none => c)
    (create_shape d)

/-- Once the accumulator of the boolean fold is a concrete shape it stays
concrete: every later step wraps it in another kernel call. -/
theorem bool_foldl_some (k : BoolKind) (p : Option Nat) :
    ∀ (cs : List (Option BShape)) (a : BShape),
      cs.foldl
        (fun s c =>
          match s with
          | some sv => some (do_operation k p sv c)
          | none => c) (some a)
      = some (cs.foldl (fun acc c => do_operation k p acc c) a) := by
  intro cs
  induction cs with
  | nil =>
    intro a
    rfl
  | cons c cs ih =>
    intro a
    simp only [List.foldl_cons]
    exact ih (do_operation k p a c)

/-- Starting from an unset accumulator, the boolean fold stays unset
exactly when every child shape is unset. -/
theorem bool_foldl_none_iff (k : BoolKind) (p : Option Nat) :
    ∀ (cs : List (Option BShape)),
      (cs.foldl
        (fun s c =>
          match s with
          | some sv => some (do_operation k p sv c)
          | none => c) none
        = none) ↔ ∀ c ∈ cs, c = none := by
  intro cs
  induction cs with
  | nil => simp
  | cons c cs ih =>
    cases c with
    | none =>
      simp only [List.foldl_cons]
      constructor
      · intro h
        intro x hx
        rcases List.mem_cons.mp hx with hx | hx
        · exact hx
        · exact (ih.mp h) x hx
      · intro h
        exact ih.mpr (fun x hx => h x (List.mem_cons_of_mem _ hx))
    | some s =>
      simp only [List.foldl_cons]
      constructor
      · intro h
        rw [bool_foldl_some] at h
        exact absurd h (by simp)
      · intro h
        exact absurd (h (some s) (List.mem_cons_self _ _)) (by simp)

/-- C1: a boolean node with both explicit operands present rebuilds to
the left fold `op(...op(op(shape1, shape2), c1)..., cn)` over the
children in declared order; for kind `Cut` with operands `A, B` and
children `[C, D]` the result is `Cut(Cut(Cut(A,B),C),D)`, and reordering
the children changes the result. -/
theorem bool_update_left_fold :
    (∀ (k : BoolKind) (p : Option Nat) (a b : BShape) (cs : List BShape),
       bool_update_shape ⟨k, some a, some b, p⟩ (cs.map some)
         = some (cs.foldl (fun acc c => BShape.boolOp k p acc (some c))
             (BShape.boolOp k p a (some b))))
    ∧ bool_update_shape ⟨.cut, some (.leaf 0), some (.leaf 1), none⟩
        [some (.leaf 2), some (.leaf 3)]
      = some (.boolOp .cut none
          (.boolOp .cut none (.boolOp .cut none (.leaf 0) (some (.leaf 1)))
            (some (.leaf 2)))
          (some (.leaf 3)))
    ∧ bool_update_shape ⟨.cut, some (.leaf 0), some (.leaf 1), none⟩
        [some (.leaf 3), some (.leaf 2)]
      ≠ bool_update_shape ⟨.cut, some (.leaf 0), some (.leaf 1), none⟩
        [some (.leaf 2), some (.leaf 3)] := by
  refine ⟨?_, ?_, ?_⟩
  · intro k p a b cs
    show (cs.map some).foldl _ (create_shape ⟨k, some a, some b, p⟩) = _
    rw [show create_shape ⟨k, some a, some b, p⟩
          = some (do_operation k p a (some b)) from rfl]
    rw [bool_foldl_some, List.foldl_map]
    rfl
  · rfl
  · simp [bool_update_shape, create_shape, do_operation]

/-- C2 counterexample: with `shape1` absent but a child whose shape is
present, the rebuild does not leave the result as none — it falls back
to the child's shape. -/
theorem bool_missing_operand_not_inert :
    bool_update_shape ⟨.cut, none, some (.leaf 1), none⟩ [some (.leaf 2)]
      ≠ none := by
  simp [bool_update_shape, create_shape]

/-- C2 (amended): when either explicit operand is absent, `create_shape`
produces no shape, and the rebuild then folds the children alone: the
result is none exactly when every child's shape is none (in particular
when the child list is empty). -/
theorem bool_missing_operand_folds_children :
    ∀ (d : BoolDecl) (children : List (Option BShape)),
      d.shape1 = none ∨ d.shape2 = none →
      create_shape d = none ∧
        (bool_update_shape d children = none ↔ ∀ c ∈ children, c = none) := by
  intro d children h
  have hc : create_shape d = none := by
    rcases h with h | h
    · simp [create_shape, h]
    · rcases h1 : d.shape1 with _ | a <;> simp [create_shape, h, h1]
  refine ⟨hc, ?_⟩
  show (children.foldl _ (create_shape d) = none) ↔ _
  rw [hc]
  exact bool_foldl_none_iff d.kind d.pave_filler children

/-- Witness for the amended C2 at a concrete unconfigured node. -/
theorem bool_missing_operand_folds_children_witness :
    create_shape ⟨.cut, none, none, none⟩ = none ∧
      (bool_update_shape ⟨.cut, none, none, none⟩ [none] = none ↔
        ∀ c ∈ ([none] : List (Option BShape)), c = none) :=
  bool_missing_operand_folds_children ⟨.cut, none, none, none⟩ [none]
    (Or.inl rfl)

/-! ### Debounce scheduling (`OccOperation._queue_update` / `_dequeue_update`) -/

/-- Scheduler-visible state of one operation node: the `_update_count`
pending counter (an integer, as in the source, so that "never negative"
is a real statement), whether `self.declaration` is still set, the
current value of a representative declared parameter, the number of
`timed_call` callbacks enqueued but not yet fired, and the log of
`update_shape` invocations with the parameter value each one observed. -/
structure SchedState where
  update_count : Int
  live : Bool
  param : Nat
  queue : Nat
  builds : List Nat
deriving DecidableEq, Repr

/-- `OccOperation._queue_update`: increment `_update_count` and enqueue
one deferred `_dequeue_update` callback via `timed_call(0, ...)`. -/
def queue_update (s : SchedState) : SchedState :=
  { s with update_count := s.update_count + 1, queue := s.queue + 1 }

/-- `OccOperation._dequeue_update`: decrement `_update_count`; if it is
now nonzero another notification arrived meanwhile, so do nothing; if
the declaration is gone do nothing; otherwise run `update_shape`, which
observes the current parameter values. -/
def dequeue_update (s : SchedState) : SchedState :=
  let s1 : SchedState :=
    { s with update_count := s.update_count - 1, queue := s.queue - 1 }
  if s1.update_count ≠ 0 then s1
  else if s1.live = false then s1
  else { s1 with builds := s1.builds ++ [s1.param] }

/-- A parameter write: store the new value, then notify the scheduler
(every `set_*` handler of an operation calls `self._queue_update`). -/
def set_parameter (v : Nat) (s : SchedState) : SchedState :=
  queue_update { s with param := v }

/-- A burst of parameter writes delivered within one scheduling cycle
(all writes land before any of their deferred callbacks fires). -/
def run_writes (vs : List Nat) (s : SchedState) : SchedState :=
  vs.foldl (fun st v => set_parameter v st) s

/-- Fire `k` queued `_dequeue_update` callbacks in order. -/
def run_pending : Nat → SchedState → SchedState
  | 0, s => s
  | k + 1, s => run_pending k (dequeue_update s)

/-- A node at rest: no pending notification, declaration present. -/
def idle : SchedState := ⟨0, true, 0, 0, []⟩

/-- Effect of a burst of writes on the scheduler state: the counter and
the callback queue grow by the number of writes, no rebuild runs inline,
and the stored parameter is the last value written. -/
theorem run_writes_spec :
    ∀ (vs : List Nat) (s : SchedState),
      run_writes vs s
        = { s with
            update_count := s.update_count + vs.length,
            queue := s.queue + vs.length,
            param := vs.getLastD s.param } := by
  intro vs
  induction vs with
  | nil =>
    intro s
    simp [run_writes]
  | cons v vs ih =>
    intro s
    show run_writes vs (set_parameter v s) = _
    rw [ih]
    simp only [set_parameter, queue_update, List.getLastD_cons,
      List.length_cons, SchedState.mk.injEq, and_true, true_and]
    omega

/-- Firing fewer callbacks than are pending only decrements the counter:
no rebuild runs while the counter stays positive. -/
theorem run_pending_under :
    ∀ (k n : Nat) (v : Nat), k < n →
      run_pending k ⟨(n : Int), true, v, n, []⟩
        = ⟨((n : Int) - k), true, v, n - k, []⟩ := by
  intro k
  induction k with
  | zero =>
    intro n v _
    simp [run_pending]
  | succ k ih =>
    intro n v h
    show run_pending k (dequeue_update ⟨(n : Int), true, v, n, []⟩) = _
    have hn : 1 ≤ n := by omega
    have hd : dequeue_update ⟨(n : Int), true, v, n, []⟩
        = ⟨((n - 1 : Nat) : Int), true, v, n - 1, []⟩ := by
      have hne : (n : Int) - 1 ≠ 0 := by
        have : 2 ≤ n := by omega
        omega
      simp only [dequeue_update, hne, if_true, SchedState.mk.injEq, ne_eq,
        not_false_eq_true, ite_true, and_true, true_and]
      omega
    rw [hd, ih (n - 1) v (by omega)]
    simp only [SchedState.mk.injEq, and_true, true_and]
    omega

/-- Firing exactly as many callbacks as are pending drives the counter
to zero and runs `update_shape` exactly once, at the last callback. -/
theorem run_pending_full :
    ∀ (n : Nat) (v : Nat), 1 ≤ n →
      run_pending n ⟨(n : Int), true, v, n, []⟩ = ⟨0, true, v, 0, [v]⟩ := by
  intro n
  induction n with
  | zero =>
    intro v h
    omega
  | succ n ih =>
    intro v _
    show run_pending n (dequeue_update ⟨((n + 1 : Nat) : Int), true, v, n + 1, []⟩) = _
    rcases Nat.eq_zero_or_pos n with hn | hn
    · subst hn
      have hd : dequeue_update ⟨((1 : Nat) : Int), true, v, 1, []⟩
          = ⟨0, true, v, 0, [v]⟩ := by
        simp [dequeue_update]
      rw [hd]
      rfl
    · have hd : dequeue_update ⟨((n + 1 : Nat) : Int), true, v, n + 1, []⟩
          = ⟨(n : Int), true, v, n, []⟩ := by
        have hne : ((n + 1 : Nat) : Int) - 1 ≠ 0 := by omega
        simp only [dequeue_update, hne, SchedState.mk.injEq, ne_eq,
          not_false_eq_true, ite_true, and_true, true_and]
        omega
      rw [hd]
      exact ih v hn

/-- C3: `n ≥ 1` change notifications within one scheduling cycle — each
incrementing the pending counter and enqueuing one deferred callback —
cause exactly one `update_shape` invocation once the callbacks fire, and
it observes the final parameter value; the pending counter returns to
zero and is never negative at any point of the run. -/
theorem debounce_single_rebuild :
    ∀ (vs : List Nat) (v : Nat),
      (run_pending (vs ++ [v]).length (run_writes (vs ++ [v]) idle)).builds
        = [v]
      ∧ (run_pending (vs ++ [v]).length
          (run_writes (vs ++ [v]) idle)).update_count = 0
      ∧ ∀ k, k ≤ (vs ++ [v]).length →
          0 ≤ (run_pending k (run_writes (vs ++ [v]) idle)).update_count := by
  intro vs v
  have hw : run_writes (vs ++ [v]) idle
      = ⟨((vs.length + 1 : Nat) : Int), true, v, vs.length + 1, []⟩ := by
    rw [run_writes_spec]
    simp [idle]
  have hlen : (vs ++ [v]).length = vs.length + 1 := by simp
  refine ⟨?_, ?_, ?_⟩
  · rw [hw, hlen, run_pending_full (vs.length + 1) v (by omega)]
  · rw [hw, hlen, run_pending_full (vs.length + 1) v (by omega)]
  · intro k hk
    rw [hw]
    rw [hlen] at hk
    rcases Nat.lt_or_ge k (vs.length + 1) with hlt | hge
    · rw [run_pending_under k (vs.length + 1) v hlt]
      dsimp only
      omega
    · have hkeq : k = vs.length + 1 := by omega
      rw [hkeq, run_pending_full (vs.length + 1) v (by omega)]

/-- Witness for C3: a burst of three writes yields one rebuild seeing
the last value, and the counter stays nonnegative. -/
theorem debounce_single_rebuild_witness :
    (run_pending ([1, 2] ++ [3]).length
      (run_writes ([1, 2] ++ [3]) idle)).builds = [3]
    ∧ 0 ≤ (run_pending 2 (run_writes ([1, 2] ++ [3]) idle)).update_count :=
  ⟨(debounce_single_rebuild [1, 2] 3).1,
   (debounce_single_rebuild [1, 2] 3).2.2 2 (by decide)⟩

/-! ### Fillet, Chamfer and ThickSolid rebuilds -/

/-- Python exception kinds raised by the rebuild paths: the structured
`ValueError` raised explicitly by `OccFillet.update_shape`, the
`AttributeError` from accessing `.shape` on `None`, and the `TypeError`
from iterating `None`. -/
inductive PyError
  | valueError (msg : String)
  | attributeError (msg : String)
  | typeError (msg : String)
deriving DecidableEq, Repr

/-- One child node as seen by these operations: its computed shape (an
opaque id) and its topology's edge and face lists. -/
structure ChildNode where
  shape : Nat
  topology_edges : List Nat
  topology_faces : List Nat
deriving DecidableEq, Repr

/-- A kernel builder call, recorded for counting kernel interactions. -/
inductive KCall
  | mkFillet (base : Nat)
  | addFillet (radius : Int) (edge : Nat)
  | mkChamfer (base : Nat)
  | addChamfer (distance : Int) (distance2 : Option Int) (edge : Nat) (face : Nat)
  | mkThickSolid (base : Nat) (faces : List Nat) (offset : Int)
deriving DecidableEq, Repr

/-- Outcome of one `update_shape` run: the exception raised if any, the
node's `shape` attribute afterwards (the previous value when the run
raised before assigning), and the kernel calls issued. -/
structure UpdateResult (A : Type) where
  err : Option PyError
  shape : Option A
  calls : List KCall
deriving DecidableEq, Repr

/-- Fillet declaration attributes: the uniform radius and the explicit
edge list. -/
structure FilletDecl where
  radius : Int
  edges : List Nat
deriving DecidableEq, Repr

/-- The opaque fillet builder result: base shape, radius, edges added. -/
inductive FShape
  | fillet (base : Nat) (radius : Int) (edges : List Nat)
deriving DecidableEq, Repr

/-- `OccFillet.update_shape`: raise `ValueError` when there is no child;
otherwise construct `BRepFilletAPI_MakeFillet` on the first child's
shape, add each resolved edge (the declared list when non-empty, else
every topology edge) with the declared radius, and store the builder. -/
def fillet_update_shape (d : FilletDecl) (children : List ChildNode)
    (prev : Option FShape) : UpdateResult FShape :=
  match children with
  | [] =>
    { err := some (PyError.valueError
        "Fillet must have a child shape to operate on."),
      shape := prev,
      calls := [] }
  | child :: _ =>
    let edges := if d.edges = [] then child.topology_edges else d.edges
    { err := none,
      shape := some (FShape.fillet child.shape d.radius edges),
      calls := KCall.mkFillet child.shape
        :: edges.map (fun e => KCall.addFillet d.radius e) }

/-- Chamfer declaration attributes: the distance, the optional second
distance (Python truthiness: `0` means absent), and the explicit edge
and face lists. -/
structure ChamferDecl where
  distance : Int
  distance2 : Int
  edges : List Nat
  faces : List Nat
deriving DecidableEq, Repr

/-- The opaque chamfer builder result. -/
inductive CShape
  | chamfer (base : Nat) (pairs : List (Nat × Nat))
deriving DecidableEq, Repr

/-- `OccChamfer.get_shape`: the first child, or Python `None` when the
node has no children. -/
def chamfer_get_shape (children : List ChildNode) : Option ChildNode :=
  children.head?

/-- The edge list the chamfer resolves: the declared edges, or every
topology edge when the declared list is empty (`d.edges or ...`). -/
def chamfer_resolved_edges (d : ChamferDecl) (s : ChildNode) : List Nat :=
  if d.edges = [] then s.topology_edges else d.edges

/-- The face list the chamfer resolves: the declared faces, or every
topology face when the declared list is empty (`d.faces or ...`). -/
def chamfer_resolved_faces (d : ChamferDecl) (s : ChildNode) : List Nat :=
  if d.faces = [] then s.topology_faces else d.faces

/-- `OccChamfer.get_edges`: the positional `zip` of the resolved edge
list with the resolved face list. -/
def chamfer_get_edges (d : ChamferDecl) (s : ChildNode) : List (Nat × Nat) :=
  (chamfer_resolved_edges d s).zip (chamfer_resolved_faces d s)

/-- `OccChamfer.update_shape`: `get_shape` returns `None` when there is
no child and the subsequent `s.shape` access raises `AttributeError`;
otherwise construct `BRepFilletAPI_MakeChamfer` on the child's shape and
add each edge/face pair with the declared distance(s). -/
def chamfer_update_shape (d : ChamferDecl) (children : List ChildNode)
    (prev : Option CShape) : UpdateResult CShape :=
  match chamfer_get_shape children with
  | none =>
    { err := some (PyError.attributeError
        "NoneType object has no attribute shape"),
      shape := prev,
      calls := [] }
  | some s =>
    let pairs := chamfer_get_edges d s
    { err := none,
      shape := some (CShape.chamfer s.shape pairs),
      calls := KCall.mkChamfer s.shape
        :: pairs.map (fun p =>
             KCall.addChamfer d.distance
               (if d.distance2 = 0 then none else some d.distance2)
               p.1 p.2) }

/-- ThickSolid declaration attributes (inheriting the offset fields):
the explicit closing-face list and the offset distance. -/
structure ThickDecl where
  closing_faces : List Nat
  offset : Int
deriving DecidableEq, Repr

/-- The opaque thick-solid builder result. -/
inductive TShape
  | thick (base : Nat) (faces : List Nat) (offset : Int)
deriving DecidableEq, Repr

/-- `OccThickSolid.get_faces`: the declared closing faces when the list
is truthy (non-empty); otherwise return a singleton of the first
topology face — and when the topology yields no face the Python function
falls off the end and returns `None`. -/
def thick_get_faces (d : ThickDecl) (s : ChildNode) : Option (List Nat) :=
  if d.closing_faces = [] then
    match s.topology_faces with
    | f :: _ => some [f]
    | [] => none
  else some d.closing_faces

/-- `OccThickSolid.update_shape`: fetch the first child, iterate
`get_faces` appending into a `TopTools_ListOfShape` (iterating the
`None` returned for an empty resolved set raises `TypeError`), return
silently if that list is empty, else build the kernel thick solid. -/
def thick_update_shape (d : ThickDecl) (children : List ChildNode)
    (prev : Option TShape) : UpdateResult TShape :=
  match children.head? with
  | none =>
    { err := some (PyError.attributeError
        "NoneType object has no attribute shape"),
      shape := prev,
      calls := [] }
  | some s =>
    match thick_get_faces d s with
    | none =>
      { err := some (PyError.typeError "NoneType object is not iterable"),
        shape := prev,
        calls := [] }
    | some fs =>
      if fs = [] then { err := none, shape := prev, calls := [] }
      else
        { err := none,
          shape := some (TShape.thick s.shape fs d.offset),
          calls := [KCall.mkThickSolid s.shape fs d.offset] }

/-- C4: a fillet rebuild on a node with zero children raises the
configuration error for the missing child before any kernel call: no
fillet builder is constructed, no edge is added, and the previous shape
value is unchanged. -/
theorem fillet_no_child_raises :
    ∀ (d : FilletDecl) (prev : Option FShape),
      fillet_update_shape d [] prev
        = { err := some (PyError.valueError
              "Fillet must have a child shape to operate on."),
            shape := prev,
            calls := [] } := by
  intro d prev
  rfl

/-- C10: a chamfer rebuild on a node with zero children fails with an
unstructured `AttributeError` (the target-shape lookup returns `None`
and its `shape` attribute is then accessed) before any kernel chamfer
builder is constructed; the error is not the structured `ValueError`
the fillet raises. -/
theorem chamfer_no_child_attribute_error :
    ∀ (d : ChamferDecl) (prev : Option CShape),
      chamfer_update_shape d [] prev
        = { err := some (PyError.attributeError
              "NoneType object has no attribute shape"),
            shape := prev,
            calls := [] }
      ∧ ∀ m, (chamfer_update_shape d [] prev).err
          ≠ some (PyError.valueError m) := by
  intro d prev
  refine ⟨rfl, ?_⟩
  intro m
  simp [chamfer_update_shape, chamfer_get_shape]

/-- C5: the chamfer submits to the kernel exactly the positional zip of
the resolved edge list with the resolved face list, truncated at the
shorter; with three declared edges and two declared faces only the first
two edges are paired and submitted and the third is never submitted. -/
theorem chamfer_pairs_positional_zip :
    (∀ (d : ChamferDecl) (s : ChildNode),
      (chamfer_get_edges d s).length
        = min (chamfer_resolved_edges d s).length
            (chamfer_resolved_faces d s).length
      ∧ ∀ (i : Nat) (e f : Nat),
          (chamfer_resolved_edges d s).get? i = some e →
          (chamfer_resolved_faces d s).get? i = some f →
          (chamfer_get_edges d s).get? i = some (e, f))
    ∧ ∀ (e1 e2 e3 f1 f2 : Nat) (dist : Int) (s : ChildNode)
        (prev : Option CShape),
        chamfer_update_shape ⟨dist, 0, [e1, e2, e3], [f1, f2]⟩ [s] prev
          = { err := none,
              shape := some (CShape.chamfer s.shape [(e1, f1), (e2, f2)]),
              calls := [KCall.mkChamfer s.shape,
                KCall.addChamfer dist none e1 f1,
                KCall.addChamfer dist none e2 f2] } := by
  constructor
  · intro d s
    constructor
    · exact List.length_zip _ _
    · intro i e f he hf
      exact (List.get?_zip_eq_some _ _ (e, f) i).mpr ⟨he, hf⟩
  · intro e1 e2 e3 f1 f2 dist s prev
    rfl

/-- Witness for C5 at a concrete chamfer with edges `[5, 6, 9]` and
faces `[7, 8]`: position 0 pairs edge 5 with face 7. -/
theorem chamfer_pairs_positional_zip_witness :
    (chamfer_get_edges ⟨1, 0, [5, 6, 9], [7, 8]⟩ ⟨0, [], []⟩).get? 0
      = some (5, 7) :=
  (chamfer_pairs_positional_zip.1 ⟨1, 0, [5, 6, 9], [7, 8]⟩ ⟨0, [], []⟩).2
    0 5 7 rfl rfl

/-- C6: on a thick-solid node with no declared closing faces whose child
topology yields no face, `get_faces` returns `None` and the rebuild
raises `TypeError` iterating it — instead of the silent no-op the
`IsEmpty` guard intends; indeed `get_faces` can never return an empty
list, so that guard is unreachable. -/
theorem thick_solid_empty_faces_type_error :
    thick_update_shape ⟨[], 1⟩ [⟨0, [], []⟩] none
      = { err := some (PyError.typeError "NoneType object is not iterable"),
          shape := none,
          calls := [] }
    ∧ ∀ (d : ThickDecl) (s : ChildNode), thick_get_faces d s ≠ some [] := by
  constructor
  · rfl
  · intro d s
    by_cases h : d.closing_faces = []
    · cases hf : s.topology_faces with
      | nil => simp [thick_get_faces, h, hf]
      | cons f fs => simp [thick_get_faces, h, hf]
    · simp [thick_get_faces, h]

/-- Witness for the dead-guard conjunct of C6 at a concrete faceless
declaration. -/
theorem thick_solid_empty_faces_type_error_witness :
    thick_get_faces ⟨[], 1⟩ ⟨0, [], []⟩ ≠ some [] :=
  thick_solid_empty_faces_type_error.2 ⟨[], 1⟩ ⟨0, [], []⟩

/-- Witness for C10 at a concrete chamfer node with no children. -/
theorem chamfer_no_child_attribute_error_witness :
    chamfer_update_shape ⟨1, 0, [], []⟩ [] none
      = { err := some (PyError.attributeError
            "NoneType object has no attribute shape"),
          shape := none,
          calls := [] } :=
  (chamfer_no_child_attribute_error ⟨1, 0, [], []⟩ none).1

/-! ### Dependency edges: `OccPipe.set_spline` / `set_profile` and
`OccTransform.set_shape` -/

/-- Observer state of an `OccPipe` node: the remembered previous spline
and profile proxies (`_old_spline`, `_old_profile`) and, for each slot,
the list of producer nodes whose `shape` change notification currently
invokes this node's `_queue_update`.  Nodes are identified by a
numeric id. -/
structure PipeState where
  sched : SchedState
  old_spline : Option Nat
  old_profile : Option Nat
  spline_observers : List Nat
  profile_observers : List Nat
deriving DecidableEq, Repr

/-- `OccPipe.set_spline`: unobserve the old spline if any, observe the
new one, remember it, then trigger `_queue_update`. -/
def pipe_set_spline (y : Nat) (st : PipeState) : PipeState :=
  let obs :=
    match st.old_spline with
    | some x => st.spline_observers.erase x
    | none => st.spline_observers
  { st with
    sched := queue_update st.sched,
    old_spline := some y,
    spline_observers := y :: obs }

/-- `OccPipe.set_profile`: unobserve the old profile if any, observe the
new one, remember it, then trigger `_queue_update`. -/
def pipe_set_profile (y : Nat) (st : PipeState) : PipeState :=
  let obs :=
    match st.old_profile with
    | some x => st.profile_observers.erase x
    | none => st.profile_observers
  { st with
    sched := queue_update st.sched,
    old_profile := some y,
    profile_observers := y :: obs }

/-- Whether a `shape` change on node `z` triggers this pipe node's
rebuild through the spline subscription. -/
def pipe_spline_triggers (st : PipeState) (z : Nat) : Bool :=
  st.spline_observers.contains z

/-- Whether a `shape` change on node `z` triggers this pipe node's
rebuild through the profile subscription. -/
def pipe_profile_triggers (st : PipeState) (z : Nat) : Bool :=
  st.profile_observers.contains z

/-- Observer state of an `OccTransform` node: the remembered previous
explicit shape proxy (`_old_shape`) and the producer nodes whose `shape`
change currently invokes this node's `_queue_update`. -/
structure TransformState where
  sched : SchedState
  old_shape : Option Nat
  shape_observers : List Nat
deriving DecidableEq, Repr

/-- `OccTransform.set_shape`: unobserve the old explicit shape if any,
remember and observe the new one.  Unlike `OccPipe.set_spline`, this
handler does not call `_queue_update`. -/
def transform_set_shape (y : Nat) (st : TransformState) : TransformState :=
  let obs :=
    match st.old_shape with
    | some x => st.shape_observers.erase x
    | none => st.shape_observers
  { st with
    old_shape := some y,
    shape_observers := y :: obs }

/-- Modelled from the spec: `attach_child` (the tree-plumbing entry
point; the `OccDependentShape`/enaml toolkit layer that implements child
attachment is not under `src/`) routes through the debounce scheduler's
notify. -/
def attach_child (st : SchedState) : SchedState :=
  queue_update st

/-- Modelled from the spec: `detach` (the tree-plumbing entry point; the
layer implementing detachment is not under `src/`) routes through the
debounce scheduler's notify. -/
def detach_node (st : SchedState) : SchedState :=
  queue_update st

/-- C7: rebinding the pipe's spline (or profile) reference from node `x`
to node `y` tears down the subscription on `x` and installs one on `y`:
afterwards a shape change on `x` no longer triggers the rebuild, a
change on `y` does, and the slot observes exactly the new reference. -/
theorem pipe_rebind_exact_observer :
    ∀ (st : PipeState) (x y : Nat),
      (st.old_spline = some x → st.spline_observers = [x] → x ≠ y →
        (pipe_set_spline y st).spline_observers = [y]
        ∧ (pipe_set_spline y st).old_spline = some y
        ∧ pipe_spline_triggers (pipe_set_spline y st) x = false
        ∧ pipe_spline_triggers (pipe_set_spline y st) y = true)
      ∧ (st.old_profile = some x → st.profile_observers = [x] → x ≠ y →
        (pipe_set_profile y st).profile_observers = [y]
        ∧ (pipe_set_profile y st).old_profile = some y
        ∧ pipe_profile_triggers (pipe_set_profile y st) x = false
        ∧ pipe_profile_triggers (pipe_set_profile y st) y = true) := by
  intro st x y
  constructor
  · intro hold hobs hxy
    have hset : (pipe_set_spline y st).spline_observers = [y] := by
      simp [pipe_set_spline, hold, hobs, List.erase_cons_head]
    refine ⟨hset, rfl, ?_, ?_⟩
    · simp [pipe_spline_triggers, hset]
      exact hxy
    · simp [pipe_spline_triggers, hset]
  · intro hold hobs hxy
    have hset : (pipe_set_profile y st).profile_observers = [y] := by
      simp [pipe_set_profile, hold, hobs, List.erase_cons_head]
    refine ⟨hset, rfl, ?_, ?_⟩
    · simp [pipe_profile_triggers, hset]
      exact hxy
    · simp [pipe_profile_triggers, hset]

/-- Witness for C7 at a concrete pipe node observing node 1, rebound to
node 2. -/
theorem pipe_rebind_exact_observer_witness :
    (pipe_set_spline 2 ⟨idle, some 1, none, [1], []⟩).spline_observers = [2]
    ∧ (pipe_set_spline 2 ⟨idle, some 1, none, [1], []⟩).old_spline = some 2
    ∧ pipe_spline_triggers (pipe_set_spline 2 ⟨idle, some 1, none, [1], []⟩) 1
        = false
    ∧ pipe_spline_triggers (pipe_set_spline 2 ⟨idle, some 1, none, [1], []⟩) 2
        = true :=
  (pipe_rebind_exact_observer ⟨idle, some 1, none, [1], []⟩ 1 2).1
    rfl rfl (by decide)

/-- C9 counterexample: `OccTransform.set_shape` does not notify the
scheduler — rebinding the transform's explicit shape reference leaves
the pending counter and the callback queue untouched and schedules no
rebuild. -/
theorem transform_set_shape_does_not_notify :
    (transform_set_shape 2 ⟨idle, some 1, [1]⟩).sched = idle
    ∧ (transform_set_shape 2 ⟨idle, some 1, [1]⟩).sched.update_count = 0
    ∧ (transform_set_shape 2 ⟨idle, some 1, [1]⟩).sched.queue = 0 := by
  refine ⟨rfl, rfl, rfl⟩

/-- C9 (amended): parameter writes and the pipe's spline/profile rebinds
route through the debounce scheduler — each increments the pending
counter, enqueues one deferred callback, and never runs a rebuild
inline — and so do `attach_child` and `detach` (modelled from the spec);
but rebinding the transform's explicit shape reference does not notify
the scheduler at all: it only rewires the observer. -/
theorem inbound_writes_notify_except_transform_rebind :
    ∀ (v y : Nat) (s : SchedState) (p : PipeState) (t : TransformState),
      (set_parameter v s).update_count = s.update_count + 1
      ∧ (set_parameter v s).queue = s.queue + 1
      ∧ (set_parameter v s).builds = s.builds
      ∧ (pipe_set_spline y p).sched.update_count = p.sched.update_count + 1
      ∧ (pipe_set_spline y p).sched.queue = p.sched.queue + 1
      ∧ (pipe_set_spline y p).sched.builds = p.sched.builds
      ∧ (pipe_set_profile y p).sched.update_count = p.sched.update_count + 1
      ∧ (pipe_set_profile y p).sched.queue = p.sched.queue + 1
      ∧ (pipe_set_profile y p).sched.builds = p.sched.builds
      ∧ (attach_child s).update_count = s.update_count + 1
      ∧ (attach_child s).queue = s.queue + 1
      ∧ (attach_child s).builds = s.builds
      ∧ (detach_node s).update_count = s.update_count + 1
      ∧ (detach_node s).queue = s.queue + 1
      ∧ (detach_node s).builds = s.builds
      ∧ (transform_set_shape y t).sched = t.sched := by
  intro v y s p t
  refine ⟨rfl, rfl, rfl, rfl, rfl, rfl, rfl, rfl, rfl, rfl, rfl, rfl, rfl,
    rfl, rfl, rfl⟩

/-! ### `OccTransform.get_transform`: composite transform matrices -/

noncomputable section

/-- A 3-vector over the reals (the kernel `gp` package works in 3-space;
its floating point numbers are idealised as reals). -/
structure Vec3 where
  x : ℝ
  y : ℝ
  z : ℝ

/-- A 3x3 matrix, row major. -/
structure Mat3 where
  m11 : ℝ
  m12 : ℝ
  m13 : ℝ
  m21 : ℝ
  m22 : ℝ
  m23 : ℝ
  m31 : ℝ
  m32 : ℝ
  m33 : ℝ

/-- Componentwise vector sum. -/
def vec3_add (u v : Vec3) : Vec3 :=
  ⟨u.x + v.x, u.y + v.y, u.z + v.z⟩

/-- Componentwise vector difference. -/
def vec3_sub (u v : Vec3) : Vec3 :=
  ⟨u.x - v.x, u.y - v.y, u.z - v.z⟩

/-- The identity matrix. -/
def mat3_id : Mat3 := ⟨1, 0, 0, 0, 1, 0, 0, 0, 1⟩

/-- Matrix product. -/
def mat3_mul (a b : Mat3) : Mat3 :=
  ⟨a.m11 * b.m11 + a.m12 * b.m21 + a.m13 * b.m31,
   a.m11 * b.m12 + a.m12 * b.m22 + a.m13 * b.m32,
   a.m11 * b.m13 + a.m12 * b.m23 + a.m13 * b.m33,
   a.m21 * b.m11 + a.m22 * b.m21 + a.m23 * b.m31,
   a.m21 * b.m12 + a.m22 * b.m22 + a.m23 * b.m32,
   a.m21 * b.m13 + a.m22 * b.m23 + a.m23 * b.m33,
   a.m31 * b.m11 + a.m32 * b.m21 + a.m33 * b.m31,
   a.m31 * b.m12 + a.m32 * b.m22 + a.m33 * b.m32,
   a.m31 * b.m13 + a.m32 * b.m23 + a.m33 * b.m33⟩

/-- Matrix applied to a vector. -/
def mat3_apply (a : Mat3) (v : Vec3) : Vec3 :=
  ⟨a.m11 * v.x + a.m12 * v.y + a.m13 * v.z,
   a.m21 * v.x + a.m22 * v.y + a.m23 * v.z,
   a.m31 * v.x + a.m32 * v.y + a.m33 * v.z⟩

/-- A `gp_Trsf`: an affine transform, a linear part and a shift, acting
as `v ↦ lin · v + shift`. -/
structure Trsf where
  lin : Mat3
  shift : Vec3

/-- The identity transform `gp_Trsf()`. -/
def trsf_id : Trsf := ⟨mat3_id, ⟨0, 0, 0⟩⟩

/-- `gp_Trsf.Multiply(t)`: composition `self := self ∘ t`, i.e. the
right product `self · t`. -/
def trsf_mul (a b : Trsf) : Trsf :=
  ⟨mat3_mul a.lin b.lin, vec3_add (mat3_apply a.lin b.shift) a.shift⟩

/-- The declared transform sub-operations: `Translate`, `Rotate` (axis
through a point with a direction, by an angle), `Mirror` (about an
axis), `Scale` (about a point). -/
inductive TOp
  | translate (x y z : ℝ)
  | rotate (px py pz dx dy dz angle : ℝ)
  | mirror (px py pz x y z : ℝ)
  | scale (px py pz s : ℝ)

/-- The Rodrigues rotation matrix for unit axis `(ux, uy, uz)`, with
`c`/`s` the cosine and sine of the angle. -/
def rotation_matrix (ux uy uz c s : ℝ) : Mat3 :=
  ⟨c + ux * ux * (1 - c), ux * uy * (1 - c) - uz * s, ux * uz * (1 - c) + uy * s,
   uy * ux * (1 - c) + uz * s, c + uy * uy * (1 - c), uy * uz * (1 - c) - ux * s,
   uz * ux * (1 - c) - uy * s, uz * uy * (1 - c) + ux * s, c + uz * uz * (1 - c)⟩

/-- `gp_Trsf.SetTranslation(gp_Vec(x, y, z))`. -/
def set_translation (x y z : ℝ) : Trsf :=
  ⟨mat3_id, ⟨x, y, z⟩⟩

/-- `gp_Trsf.SetRotation(gp_Ax1(p, d), angle)`: rotation about the axis
through `p` with direction `d` (`gp_Dir` normalises) by `angle`. -/
def set_rotation (px py pz dx dy dz angle : ℝ) : Trsf :=
  let n := Real.sqrt (dx * dx + dy * dy + dz * dz)
  let r := rotation_matrix (dx / n) (dy / n) (dz / n)
    (Real.cos angle) (Real.sin angle)
  ⟨r, vec3_sub ⟨px, py, pz⟩ (mat3_apply r ⟨px, py, pz⟩)⟩

/-- `gp_Trsf.SetMirror(gp_Ax1(p, d))`: axial symmetry about the axis
through `p` with direction `d`. -/
def set_mirror (px py pz dx dy dz : ℝ) : Trsf :=
  let n := Real.sqrt (dx * dx + dy * dy + dz * dz)
  let ux := dx / n
  let uy := dy / n
  let uz := dz / n
  let r : Mat3 :=
    ⟨2 * ux * ux - 1, 2 * ux * uy, 2 * ux * uz,
     2 * uy * ux, 2 * uy * uy - 1, 2 * uy * uz,
     2 * uz * ux, 2 * uz * uy, 2 * uz * uz - 1⟩
  ⟨r, vec3_sub ⟨px, py, pz⟩ (mat3_apply r ⟨px, py, pz⟩)⟩

/-- `gp_Trsf.SetScale(gp_Pnt(p), s)`: scaling about `p` by factor `s`. -/
def set_scale (px py pz s : ℝ) : Trsf :=
  ⟨⟨s, 0, 0, 0, s, 0, 0, 0, s⟩, ⟨(1 - s) * px, (1 - s) * py, (1 - s) * pz⟩⟩

/-- The elementary transform `t` built for one declared sub-operation in
the body of the `get_transform` loop. -/
def interp_op : TOp → Trsf
  | .translate x y z => set_translation x y z
  | .rotate px py pz dx dy dz a => set_rotation px py pz dx dy dz a
  | .mirror px py pz x y z => set_mirror px py pz x y z
  | .scale px py pz s => set_scale px py pz s

/-- The loop of `OccTransform.get_transform`: `result` starts as the
identity `gp_Trsf()` and each declared operation's elementary transform
is right-multiplied onto it in declared order. -/
def get_transform_loop : Trsf → List TOp → Trsf
  | result, [] => result
  | result, op :: rest => get_transform_loop (trsf_mul result (interp_op op)) rest

/-- `OccTransform.get_transform`. -/
def get_transform (ops : List TOp) : Trsf :=
  get_transform_loop trsf_id ops

end

/-- C8: the composite transform equals the fold
`M = I; M = M · T(op1); ...; M = M · T(opn)` by right-multiplication in
declared order, and swapping a translate with a 90° rotation about the
z-axis yields a different composite. -/
theorem transform_composite_right_fold :
    (∀ (ops : List TOp) (acc : Trsf),
       get_transform_loop acc ops = (ops.map interp_op).foldl trsf_mul acc)
    ∧ get_transform
        [TOp.translate 1 0 0, TOp.rotate 0 0 0 0 0 1 (Real.pi / 2)]
      ≠ get_transform
        [TOp.rotate 0 0 0 0 0 1 (Real.pi / 2), TOp.translate 1 0 0] := by
  constructor
  · intro ops
    induction ops with
    | nil =>
      intro acc
      rfl
    | cons op rest ih =>
      intro acc
      show get_transform_loop (trsf_mul acc (interp_op op)) rest = _
      rw [ih]
      rfl
  · intro h
    have h2 := congrArg (fun t => t.shift.y) h
    simp only [get_transform, get_transform_loop, interp_op, set_translation,
      set_rotation, rotation_matrix, trsf_mul, trsf_id, mat3_mul, mat3_apply,
      mat3_id, vec3_add, vec3_sub] at h2
    norm_num [Real.cos_pi_div_two, Real.sin_pi_div_two, Real.sqrt_one] at h2

end OccAlgo
